import Mathlib

/-!
# Verification of the metaplex fair-launch auction program

Shallow embedding of `src/rust/fair-launch/src/lib.rs`: the `initialize_fair_launch`
instruction (including the account-allocation space expressions that Anchor's
`#[derive(Accounts)]` layer evaluates before the handler body runs), the storage
sizing constants, and the aggregate/ticket data model.  Helper functions that live
in the repository's `utils.rs` (not present under `src/`) and the instruction
handlers other than `initialize_fair_launch` (only their account declarations are
in `lib.rs`) are modelled from the specification and marked as such in their doc
comments.

Machine integers: `u64` fields are embedded as `Nat`; where the Rust code performs
wrapping subtraction the embedding applies `% 2 ^ 64` explicitly.  `i64` Unix
timestamps are embedded as `Int`.  Public keys are abstract and embedded as `Nat`.
Fallible code returns `Except ErrorCode` (or `Option` for the spec-modelled
operations, where the spec does not name the error kind).
-/

namespace FairLaunch

/-- Abstract 32-byte public key. -/
abbrev Pubkey := Nat

/-- Error enum from `lib.rs` (`#[error] pub enum ErrorCode`). -/
inductive ErrorCode where
  | IncorrectOwner
  | Uninitialized
  | MintMismatch
  | TokenTransferFailed
  | NumericalOverflowError
  | TimestampsDontLineUp
  | CantSetPhaseThreeDatesYet
  | UuidMustBeExactly6Length
  | TickSizeTooSmall
  | CannotGiveZeroTokens
  | InvalidPriceRanges
  | TooMuchGranularityInRange
  | CannotUseTickSizeThatGivesRemainder
  | DerivedKeyInvalid
  | TreasuryAlreadyExists
deriving DecidableEq, Repr

/-- Errors of the whole instruction: either a program `ErrorCode` or a failure of
an Anchor account constraint (here, the `authority` constraint on line 70 of
`lib.rs`). -/
inductive InitError where
  | code (e : ErrorCode)
  | constraintViolation
deriving DecidableEq, Repr

/-- Decidable equality for `Except`, so that witnesses can be checked by
evaluation. -/
instance instDecEqExcept {ε α : Type} [DecidableEq ε] [DecidableEq α] :
    DecidableEq (Except ε α) := fun x y =>
  match x, y with
  | .error a, .error b =>
    if h : a = b then .isTrue (congrArg Except.error h)
    else .isFalse (fun hc => h (Except.error.inj hc))
  | .ok a, .ok b =>
    if h : a = b then .isTrue (congrArg Except.ok h)
    else .isFalse (fun hc => h (Except.ok.inj hc))
  | .error _, .ok _ => .isFalse (fun hc => Except.noConfusion hc)
  | .ok _, .error _ => .isFalse (fun hc => Except.noConfusion hc)

/-- `pub const MAX_GRANULARITY: u64 = 100;` -/
def MAX_GRANULARITY : Nat := 100

/-- The view of a Solana `AccountInfo` the embedded code inspects.
`mint_initialized` records whether the account's data deserializes as an
initialized spl-token mint (used by the spec-modelled `assert_initialized`). -/
structure AccountInfo where
  key : Pubkey
  owner : Pubkey
  lamports : Nat
  data_is_empty : Bool
  mint_initialized : Bool
deriving DecidableEq, Repr

/-- The fixed `spl_token::id()` program id, abstracted as a distinguished key. -/
def spl_token_id : Pubkey := 2

/-- `FairLaunchData` struct from `lib.rs` (all `u64` fields as `Nat`,
`UnixTimestamp` = `i64` as `Int`). -/
structure FairLaunchData where
  uuid : String
  price_range_start : Nat
  price_range_end : Nat
  phase_one_start : Int
  phase_one_end : Int
  phase_two_end : Int
  phase_three_start : Option Int
  phase_three_end : Option Int
  tick_size : Nat
  number_of_tokens : Nat
deriving DecidableEq, Repr

/-- `MedianTuple(pub u64, pub u64)`: one histogram slot, a (price tick, count)
pair. -/
structure MedianTuple where
  fst : Nat
  snd : Nat
deriving DecidableEq, Repr

/-- The `FairLaunch` account struct (the Auction aggregate root) from `lib.rs`. -/
structure FairLaunchState where
  token_mint : Pubkey
  treasury : Pubkey
  treasury_mint : Option Pubkey
  authority : Pubkey
  bump : Nat
  treasury_bump : Nat
  token_mint_bump : Nat
  data : FairLaunchData
  number_tickets_sold_in_phase_1 : Nat
  number_tickets_remaining_in_phase_2 : Nat
  number_tickets_punched_in_phase_3 : Nat
  decided_median : Option Nat
  median : List MedianTuple
deriving DecidableEq, Repr

/-- `FairLaunchTicketState` enum from `lib.rs`. -/
inductive FairLaunchTicketState where
  | Unpunched
  | Punched
  | Withdrawn
deriving DecidableEq, Repr

/-- `FairLaunchTicket` account struct from `lib.rs`. -/
structure FairLaunchTicket where
  fair_launch : Pubkey
  buyer : Pubkey
  amount : Nat
  state : FairLaunchTicketState
  bump : Nat
  seq : Nat
deriving DecidableEq, Repr

/-- `FAIR_LAUNCH_LOTTERY_SIZE` from `lib.rs` lines 187-190, written as the same
sum of field sizes. -/
def FAIR_LAUNCH_LOTTERY_SIZE : Nat := 8 + -- discriminator
  32 + -- fair launch
  1 + -- bump
  4 -- size of bitmask ones

/-- `FAIR_LAUNCH_SPACE_VEC_START` from `lib.rs` lines 192-213, written as the
same sum of field sizes. -/
def FAIR_LAUNCH_SPACE_VEC_START : Nat := 8 + -- discriminator
  32 + -- token_mint
  32 + -- treasury
  32 + -- authority
  1 + -- bump
  1 + -- treasury_bump
  1 + -- token_mint_bump
  4 + 6 + -- uuid
  8 + -- range start
  8 + -- range end
  8 + -- phase one start
  8 + -- phase one end
  8 + -- phase two end
  9 + -- phase three start
  9 + -- phase three end
  8 + -- tick size
  8 + -- number of tokens
  8 + -- number of tickets sold in phase 1
  8 + -- number of tickets remaining at the end in phase 2
  8 + -- number of tickets punched in phase 3
  9 + -- decided median
  4 -- u32 representing number of amounts in vec so far

/-- `FAIR_LAUNCH_TICKET_SIZE` from `lib.rs` lines 215-221. -/
def FAIR_LAUNCH_TICKET_SIZE : Nat := 8 + -- discriminator
  32 + -- fair launch reverse lookup
  32 + -- buyer
  8 + -- amount paid in so far
  1 + -- state
  1 + -- bump
  8 -- seq

/-- `FAIR_LAUNCH_TICKET_SEQ_SIZE` from `lib.rs` lines 223-225. -/
def FAIR_LAUNCH_TICKET_SEQ_SIZE : Nat := 8 + -- discriminator
  32 + -- fair launch ticket reverse lookup
  8 -- seq

/-- Rust `u64::checked_div`: `none` exactly on division by zero (`u64` division
cannot otherwise overflow). -/
def checked_div (a b : Nat) : Option Nat :=
  if b = 0 then none else some (a / b)

/-- Rust wrapping `u64` subtraction `a - b` (the release-profile semantics of the
unchecked subtraction in the space expression on line 65 of `lib.rs`). -/
def wrapping_sub_u64 (a b : Nat) : Nat :=
  (a % 2 ^ 64 + (2 ^ 64 - b % 2 ^ 64)) % 2 ^ 64

/-- The `space=` expression of the `fair_launch` account in `InitializeFairLaunch`
(line 65 of `lib.rs`):
`FAIR_LAUNCH_SPACE_VEC_START + 16*((end - start).checked_div(tick_size).ok_or(NumericalOverflowError)? + 1)`.
Anchor evaluates it while processing the account list, before the handler body. -/
def fair_launch_space (data : FairLaunchData) : Except ErrorCode Nat :=
  match checked_div (wrapping_sub_u64 data.price_range_end data.price_range_start)
      data.tick_size with
  | none => .error .NumericalOverflowError
  | some q => .ok (FAIR_LAUNCH_SPACE_VEC_START + 16 * (q + 1))

/-- The `space=` expression of the lottery bitmap account in
`CreateFairLaunchLotteryBitmap` (line 105 of `lib.rs`):
`FAIR_LAUNCH_LOTTERY_SIZE + (number_tickets_sold_in_phase_1.checked_div(8).ok_or(NumericalOverflowError)?) + 1`. -/
def create_lottery_bitmap_space (number_tickets_sold : Nat) : Except ErrorCode Nat :=
  match checked_div number_tickets_sold 8 with
  | none => .error .NumericalOverflowError
  | some q => .ok (FAIR_LAUNCH_LOTTERY_SIZE + q + 1)

/-- Modelled from the spec: `utils::assert_initialized` is in the repository's
`utils.rs`, which is not under `src/`.  Per the spec, a supplied alternate-currency
identity "must already be an initialized ... currency descriptor (Uninitialized)". -/
def assert_initialized (acc : AccountInfo) : Except ErrorCode Unit :=
  if acc.mint_initialized then .ok () else .error .Uninitialized

/-- Modelled from the spec: `utils::assert_owned_by` is in the repository's
`utils.rs`, which is not under `src/`.  Per the spec, a referenced account must be
"correctly owned" (IncorrectOwner). -/
def assert_owned_by (acc : AccountInfo) (owner : Pubkey) : Except ErrorCode Unit :=
  if acc.owner = owner then .ok () else .error .IncorrectOwner

/-- Modelled from the spec: `utils::assert_derivation` is in the repository's
`utils.rs`, which is not under `src/`, and deterministic key derivation is an
external collaborator.  The expected derived key is taken as a parameter; the
check fails with DerivedKeyInvalid when the account key differs from it. -/
def assert_derivation (derived : Pubkey) (acc : AccountInfo) : Except ErrorCode Unit :=
  if acc.key = derived then .ok () else .error .DerivedKeyInvalid

/-- Modelled from the spec: `utils::assert_data_valid` is in the repository's
`utils.rs`, which is not under `src/`.  Spec 4.1: "Validates: uuid length == 6
(else UuidMustBeExactly6Length); price_range_end > price_range_start and tick_size
evenly divides the range (else InvalidPriceRanges /
CannotUseTickSizeThatGivesRemainder); resulting tick_count <= 100 (else
TooMuchGranularityInRange); tick_size not degenerate (TickSizeTooSmall);
number_of_tokens > 0 (CannotGiveZeroTokens)".  Checks are performed in the
spec's order, except that the degenerate tick size is rejected before it is used
as a divisor. -/
def assert_data_valid (data : FairLaunchData) : Except ErrorCode Unit :=
  if data.uuid.length ≠ 6 then .error .UuidMustBeExactly6Length
  else if data.price_range_end ≤ data.price_range_start then .error .InvalidPriceRanges
  else if data.tick_size = 0 then .error .TickSizeTooSmall
  else if (data.price_range_end - data.price_range_start) % data.tick_size ≠ 0 then
    .error .CannotUseTickSizeThatGivesRemainder
  else if MAX_GRANULARITY < (data.price_range_end - data.price_range_start) / data.tick_size + 1 then
    .error .TooMuchGranularityInRange
  else if data.number_of_tokens = 0 then .error .CannotGiveZeroTokens
  else .ok ()

/-- The accounts reaching `initialize_fair_launch`, after the Anchor layer:
the handler reads the authority, token mint and treasury accounts, the program id
and the remaining accounts. -/
structure InitAccounts where
  token_mint : AccountInfo
  treasury : AccountInfo
  authority : AccountInfo
  program_id : Pubkey
  remaining_accounts : List AccountInfo
deriving DecidableEq, Repr

/-- A `FairLaunch` account freshly created by Anchor's `init` constraint: the
account data is zeroed, so every counter is 0, the histogram vector is empty and
every `Option` is `none`. -/
def zeroedFairLaunch : FairLaunchState :=
  { token_mint := 0
    treasury := 0
    treasury_mint := none
    authority := 0
    bump := 0
    treasury_bump := 0
    token_mint_bump := 0
    data :=
      { uuid := ""
        price_range_start := 0
        price_range_end := 0
        phase_one_start := 0
        phase_one_end := 0
        phase_two_end := 0
        phase_three_start := none
        phase_three_end := none
        tick_size := 0
        number_of_tokens := 0 }
    number_tickets_sold_in_phase_1 := 0
    number_tickets_remaining_in_phase_2 := 0
    number_tickets_punched_in_phase_3 := 0
    decided_median := none
    median := [] }

/-- The body of `pub fn initialize_fair_launch` (`lib.rs` lines 23-59), acting on
the freshly created (zeroed) `fair_launch` account.  On success it returns the
final state of that account; each check propagates its error exactly as the `?`
operator does in the source. -/
def initialize_fair_launch (accs : InitAccounts) (derived_treasury : Pubkey)
    (bump treasury_bump token_mint_bump : Nat) (data : FairLaunchData) :
    Except ErrorCode FairLaunchState :=
  match assert_data_valid data with
  | .error e => .error e
  | .ok _ =>
    match assert_owned_by accs.token_mint spl_token_id with
    | .error e => .error e
    | .ok _ =>
      match assert_derivation derived_treasury accs.treasury with
      | .error e => .error e
      | .ok _ =>
        let fl : FairLaunchState :=
          { zeroedFairLaunch with
              data := data
              authority := accs.authority.key
              bump := bump
              treasury_bump := treasury_bump
              token_mint_bump := token_mint_bump
              token_mint := accs.token_mint.key
              treasury := accs.treasury.key }
        match accs.remaining_accounts with
        | tm :: _ =>
          match assert_initialized tm with
          | .error e => .error e
          | .ok _ =>
            match assert_owned_by tm spl_token_id with
            | .error e => .error e
            | .ok _ => .ok { fl with treasury_mint := some tm.key }
        | [] =>
          if ¬ accs.treasury.data_is_empty ∨ 0 < accs.treasury.lamports ∨
              accs.treasury.owner ≠ accs.program_id then
            .error .TreasuryAlreadyExists
          else .ok fl

/-- The whole `initialize_fair_launch` instruction as Anchor executes it: first
the account list is processed in order — the `fair_launch` account's `space`
expression is evaluated (line 65), then the `authority` account constraint
`data_is_empty && lamports > 0` (line 70) is checked — and only then does the
handler body run.  On success it returns the allocated space and the final
`fair_launch` state. -/
def initialize_instruction (accs : InitAccounts) (derived_treasury : Pubkey)
    (bump treasury_bump token_mint_bump : Nat) (data : FairLaunchData) :
    Except InitError (Nat × FairLaunchState) :=
  match fair_launch_space data with
  | .error e => .error (.code e)
  | .ok space =>
    if accs.authority.data_is_empty ∧ 0 < accs.authority.lamports then
      match initialize_fair_launch accs derived_treasury bump treasury_bump
          token_mint_bump data with
      | .error e => .error (.code e)
      | .ok fl => .ok (space, fl)
    else .error .constraintViolation

/-! ## Spec-modelled aggregate operations

The handlers below (`purchase`, `adjust`, `punch`, price discovery /
`set_decided_median`, `update_config`, `start_phase_three`) are code of this
repository that is not under `src/`: `lib.rs` contains only their
`#[derive(Accounts)]` declarations and doc comments.  They are modelled from the
spec (sections 4.2-4.7), restricted to their effect on the `FairLaunch`
aggregate and the addressed ticket. -/

/-- Modelled from the spec: phase-one window test, spec 4.3
"current time in [phase_one_start, phase_one_end)". -/
def phase_one_active (data : FairLaunchData) (now : Int) : Bool :=
  decide (data.phase_one_start ≤ now) && decide (now < data.phase_one_end)

/-- Modelled from the spec: phase one or two, spec 4.4 "Phase one or two":
from phase-one start until phase two closes. -/
def phase_one_or_two_active (data : FairLaunchData) (now : Int) : Bool :=
  decide (data.phase_one_start ≤ now) && decide (now ≤ data.phase_two_end)

/-- Modelled from the spec: phase-three window test (both optional bounds must be
present and bracket the current time). -/
def phase_three_active (data : FairLaunchData) (now : Int) : Bool :=
  match data.phase_three_start, data.phase_three_end with
  | some s, some e => decide (s ≤ now) && decide (now < e)
  | _, _ => false

/-- Modelled from the spec: a bid amount is valid when it "falls within
[price_range_start, price_range_end] and aligns to a tick boundary" (spec 4.3). -/
def tick_aligned (data : FairLaunchData) (amount : Nat) : Bool :=
  decide (data.price_range_start ≤ amount) && decide (amount ≤ data.price_range_end) &&
    decide ((amount - data.price_range_start) % data.tick_size = 0)

/-- Modelled from the spec: "increment histogram bucket for amount's tick by 1"
(spec 4.3); a bucket not yet present in the vector is appended with count 1. -/
def histo_inc : List MedianTuple → Nat → List MedianTuple
  | [], amt => [⟨amt, 1⟩]
  | b :: rest, amt =>
    if b.fst = amt then ⟨b.fst, b.snd + 1⟩ :: rest else b :: histo_inc rest amt

/-- Modelled from the spec: "decrement histogram bucket for old tick" (spec 4.4). -/
def histo_dec : List MedianTuple → Nat → List MedianTuple
  | [], _ => []
  | b :: rest, amt =>
    if b.fst = amt then ⟨b.fst, b.snd - 1⟩ :: rest else b :: histo_dec rest amt

/-- Modelled from the spec: `purchase` (spec 4.3).  Precondition: phase-one
window and a valid tick-aligned amount.  Effects on the aggregate and the new
ticket: the ticket is created Unpunched with `seq` equal to the pre-increment
sold counter, the sold counter is incremented and the histogram bucket for the
amount is incremented.  (The value transfer to the treasury is the external
token-transfer collaborator and is not part of the aggregate state.) -/
def purchase (now : Int) (fl_key : Pubkey) (fl : FairLaunchState) (buyer : Pubkey)
    (amount : Nat) : Option (FairLaunchState × FairLaunchTicket) :=
  if phase_one_active fl.data now && tick_aligned fl.data amount then
    some
      ({ fl with
          number_tickets_sold_in_phase_1 := fl.number_tickets_sold_in_phase_1 + 1
          median := histo_inc fl.median amount },
        { fair_launch := fl_key
          buyer := buyer
          amount := amount
          state := .Unpunched
          bump := 0
          seq := fl.number_tickets_sold_in_phase_1 })
  else none

/-- The state and ticket updates common to every successful `adjust`: histogram
bucket of the old amount decremented, bucket of the new amount incremented,
ticket amount replaced (spec 4.4 Effects). -/
def adjust_apply (fl : FairLaunchState) (t : FairLaunchTicket) (new_amount : Nat) :
    FairLaunchState × FairLaunchTicket :=
  ({ fl with median := histo_inc (histo_dec fl.median t.amount) new_amount },
    { t with amount := new_amount })

/-- Modelled from the spec: `adjust` (spec 4.4 and the doc comment on
`AdjustTicket`, `lib.rs` lines 151-154).  In phase one or two any tick-aligned
amount is allowed; in phase three the decided median must be set and: above the
median, `median ≤ new_amount < current amount`; at or below the median,
`new_amount ≤ current amount`.  Finalized (punched or withdrawn) tickets cannot
be adjusted. -/
def adjust (now : Int) (fl : FairLaunchState) (t : FairLaunchTicket)
    (new_amount : Nat) : Option (FairLaunchState × FairLaunchTicket) :=
  if t.state ≠ .Unpunched then none
  else if tick_aligned fl.data new_amount = false then none
  else if phase_one_or_two_active fl.data now then some (adjust_apply fl t new_amount)
  else if phase_three_active fl.data now then
    match fl.decided_median with
    | none => none
    | some m =>
      if m < t.amount then
        if m ≤ new_amount ∧ new_amount < t.amount then some (adjust_apply fl t new_amount)
        else none
      else if new_amount ≤ t.amount then some (adjust_apply fl t new_amount)
      else none
  else none

/-- Modelled from the spec: `punch` (spec 4.7).  Precondition: the ticket is
Unpunched and the phase is three.  A winner's ticket transitions to Punched and
the punched counter is incremented; a loser's ticket transitions to Withdrawn
(the refund itself is the external transfer collaborator).  `winner` abstracts
the lottery-bitmap bit for the ticket's sequence number. -/
def punch (now : Int) (fl : FairLaunchState) (t : FairLaunchTicket)
    (winner : Bool) : Option (FairLaunchState × FairLaunchTicket) :=
  if t.state = .Unpunched ∧ phase_three_active fl.data now then
    if winner then
      some
        ({ fl with
            number_tickets_punched_in_phase_3 := fl.number_tickets_punched_in_phase_3 + 1 },
          { t with state := .Punched })
    else some (fl, { t with state := .Withdrawn })
  else none

/-- Modelled from the spec: price discovery (spec 4.5), "triggered once, after
phase one closes (and no later than phase two's close)"; it sets
`decided_median` and `number_tickets_remaining_in_phase_2`, and "decided_median
is set once; any subsequent attempt to set it fails (already decided)".  The
median value and the contested-pool size produced by the histogram walk are
abstracted as parameters, since only the once-set behaviour is claimed. -/
def set_decided_median (now : Int) (fl : FairLaunchState) (m remaining : Nat) :
    Option FairLaunchState :=
  if fl.decided_median.isSome then none
  else if decide (fl.data.phase_one_end ≤ now) && decide (now ≤ fl.data.phase_two_end) then
    some { fl with decided_median := some m,
                   number_tickets_remaining_in_phase_2 := remaining }
  else none

/-- Modelled from the spec: `update_config` (spec 4.2): "Config fields other than
the phase-three window are mutable only while the current time is strictly before
phase_one_start"; the stored phase-three window is preserved. -/
def update_config (now : Int) (fl : FairLaunchState) (d : FairLaunchData) :
    Option FairLaunchState :=
  if decide (now < fl.data.phase_one_start) then
    some { fl with
            data := { d with
                        phase_three_start := fl.data.phase_three_start
                        phase_three_end := fl.data.phase_three_end } }
  else none

/-- Modelled from the spec: `start_phase_three` (spec 4.2): the phase-three window
may be set only once a lottery bitmap exists (else CantSetPhaseThreeDatesYet) and
its bounds must exceed phase_two_end and satisfy start < end (else
TimestampsDontLineUp). -/
def start_phase_three (fl : FairLaunchState) (bitmap_exists : Bool) (s e : Int) :
    Option FairLaunchState :=
  if bitmap_exists = false then none
  else if decide (fl.data.phase_two_end < s) && decide (s < e) then
    some { fl with
            data := { fl.data with phase_three_start := some s, phase_three_end := some e } }
  else none

/-- The operations of the program that write the `FairLaunch` aggregate
(spec section 6 operation list; `initialize` creates the aggregate and
`create/extend_lottery_bitmap` write only the separate bitmap account). -/
inductive Op where
  | purchaseOp (fl_key buyer : Pubkey) (amount : Nat)
  | adjustOp (t : FairLaunchTicket) (new_amount : Nat)
  | punchOp (t : FairLaunchTicket) (winner : Bool)
  | setMedianOp (m remaining : Nat)
  | updateConfigOp (d : FairLaunchData)
  | startPhaseThreeOp (bitmap_exists : Bool) (s e : Int)

/-- Effect of one aggregate-writing operation on the `FairLaunch` state
(`none` = the operation fails and the state is unchanged). -/
def apply_op (now : Int) (op : Op) (fl : FairLaunchState) : Option FairLaunchState :=
  match op with
  | .purchaseOp k b a => (purchase now k fl b a).map Prod.fst
  | .adjustOp t na => (adjust now fl t na).map Prod.fst
  | .punchOp t w => (punch now fl t w).map Prod.fst
  | .setMedianOp m r => set_decided_median now fl m r
  | .updateConfigOp d => update_config now fl d
  | .startPhaseThreeOp be s e => start_phase_three fl be s e

/-! ## Concrete example inputs (used by witnesses and counterexamples) -/

/-- A config accepted by every validation rule: 6-character uuid, range 100-200,
tick size 50 (tick count 3), 5 tokens. -/
def dataOk : FairLaunchData :=
  { uuid := "ABCDEF"
    price_range_start := 100
    price_range_end := 200
    phase_one_start := 10
    phase_one_end := 20
    phase_two_end := 30
    phase_three_start := none
    phase_three_end := none
    tick_size := 50
    number_of_tokens := 5 }

/-- `dataOk` with a 5-character uuid. -/
def dataBadUuid : FairLaunchData := { dataOk with uuid := "ABCDE" }

/-- `dataOk` with a 5-character uuid and a zero tick size. -/
def dataBadUuidZeroTick : FairLaunchData := { dataBadUuid with tick_size := 0 }

/-- A token-mint account owned by the spl-token program. -/
def tokenMintOk : AccountInfo :=
  { key := 12, owner := spl_token_id, lamports := 1, data_is_empty := false,
    mint_initialized := true }

/-- A treasury account that has never been created on chain: empty data, zero
balance, owned by the system program (key 0), at the expected derived address. -/
def freshTreasury : AccountInfo :=
  { key := 11, owner := 0, lamports := 0, data_is_empty := true,
    mint_initialized := false }

/-- An authority satisfying the Anchor constraint on line 70 of `lib.rs`. -/
def authorityOk : AccountInfo :=
  { key := 13, owner := 0, lamports := 1, data_is_empty := true,
    mint_initialized := false }

/-- An initialized alternate-currency mint owned by the spl-token program. -/
def altMintOk : AccountInfo :=
  { key := 21, owner := spl_token_id, lamports := 1, data_is_empty := false,
    mint_initialized := true }

/-- Accounts for an initialize call with no alternate currency and a fresh,
never-created treasury; the program id is 99. -/
def accsFreshTreasury : InitAccounts :=
  { token_mint := tokenMintOk, treasury := freshTreasury, authority := authorityOk,
    program_id := 99, remaining_accounts := [] }

/-- Accounts for an initialize call supplying the alternate-currency mint. -/
def accsAltMint : InitAccounts :=
  { token_mint := tokenMintOk, treasury := freshTreasury, authority := authorityOk,
    program_id := 99, remaining_accounts := [altMintOk] }

/-- The `FairLaunch` state produced by a successful initialize over `accsAltMint`
and `dataOk` with bumps 5, 6, 7. -/
def flInitialized : FairLaunchState :=
  { zeroedFairLaunch with
      data := dataOk
      authority := 13
      bump := 5
      treasury_bump := 6
      token_mint_bump := 7
      token_mint := 12
      treasury := 11
      treasury_mint := some 21 }

/-- An aggregate whose median has already been decided (at price 150). -/
def flDecided : FairLaunchState :=
  { flInitialized with
      data := { dataOk with phase_three_start := some 40, phase_three_end := some 50 }
      number_tickets_sold_in_phase_1 := 2
      decided_median := some 150
      median := [⟨150, 1⟩, ⟨200, 1⟩] }

/-- A ticket of `flDecided` currently bidding 200, above the decided median. -/
def ticketAt200 : FairLaunchTicket :=
  { fair_launch := 31, buyer := 32, amount := 200, state := .Unpunched, bump := 0,
    seq := 1 }

/-- `flDecided` after one winning ticket has been punched. -/
def flPunched : FairLaunchState :=
  { flDecided with number_tickets_punched_in_phase_3 := 1 }

/-! ## Shared inversion lemmas -/

/-- Success of the whole instruction splits into success of the space computation
and success of the handler body. -/
theorem initialize_instruction_ok_inv (accs : InitAccounts) (derived : Pubkey)
    (b tb tmb : Nat) (data : FairLaunchData) (sp : Nat) (fl : FairLaunchState)
    (h : initialize_instruction accs derived b tb tmb data = .ok (sp, fl)) :
    fair_launch_space data = .ok sp ∧
    initialize_fair_launch accs derived b tb tmb data = .ok fl := by
  unfold initialize_instruction at h
  split at h
  · exact Except.noConfusion h
  · rename_i space hspace
    split at h
    · split at h
      · exact Except.noConfusion h
      · rename_i fl0 hfl0
        injection h with h2
        rw [Prod.mk.injEq] at h2
        obtain ⟨h3, h4⟩ := h2
        subst h3
        subst h4
        exact ⟨hspace, hfl0⟩
    · exact Except.noConfusion h

/-- A successful handler run implies the config passed validation. -/
theorem initialize_fair_launch_ok_data_valid (accs : InitAccounts) (derived : Pubkey)
    (b tb tmb : Nat) (data : FairLaunchData) (fl : FairLaunchState)
    (h : initialize_fair_launch accs derived b tb tmb data = .ok fl) :
    assert_data_valid data = .ok () := by
  unfold initialize_fair_launch at h
  split at h
  · exact Except.noConfusion h
  · rename_i u hdv
    cases u
    exact hdv

/-- What passing `assert_data_valid` says about the config. -/
theorem assert_data_valid_ok_inv (data : FairLaunchData)
    (h : assert_data_valid data = .ok ()) :
    data.uuid.length = 6 ∧
    data.price_range_start < data.price_range_end ∧
    data.tick_size ≠ 0 ∧
    (data.price_range_end - data.price_range_start) % data.tick_size = 0 ∧
    (data.price_range_end - data.price_range_start) / data.tick_size + 1 ≤ MAX_GRANULARITY ∧
    data.number_of_tokens ≠ 0 := by
  unfold assert_data_valid at h
  split_ifs at h with h1 h2 h3 h4 h5 h6
  exact ⟨by omega, by omega, h3, by omega, by omega, h6⟩

/-! ## C2 -/

/-- C2 (code bug): with no alternate-currency identity, a fresh never-created
treasury — empty data, zero balance, owned by the system program rather than the
fair-launch program — is rejected with TreasuryAlreadyExists, because line 53 of
`lib.rs` also requires `treasury.owner == program_id`, which a never-created
account cannot satisfy; the spec (and the code's own comment on line 52) say such
a treasury must be accepted. -/
theorem initialize_fresh_treasury_rejected :
    freshTreasury.data_is_empty = true ∧
    freshTreasury.lamports = 0 ∧
    freshTreasury.owner ≠ accsFreshTreasury.program_id ∧
    initialize_instruction accsFreshTreasury 11 0 0 0 dataOk =
      .error (.code .TreasuryAlreadyExists) := by decide

/-! ## C6 -/

/-- C6 (counterexample): with 8 tickets sold in phase one, the lottery bitmap
account is allocated 47 bytes, not 45 + ceil(8/8) = 46 as the claim states. -/
theorem lottery_bitmap_space_counterexample :
    create_lottery_bitmap_space 8 = .ok 47 ∧ (47 : Nat) ≠ 45 + (8 + 7) / 8 := by
  decide

/-- C6 (amended): for every final phase-one sold count n, the LotteryBitmap
record is allocated exactly 45 + n / 8 + 1 bytes (floor division plus one byte,
which is ceil(n/8) bitmap bytes except when 8 divides n, where one extra byte is
allocated). -/
theorem lottery_bitmap_space_eq (n : Nat) :
    create_lottery_bitmap_space n = .ok (45 + n / 8 + 1) := by
  simp [create_lottery_bitmap_space, checked_div, FAIR_LAUNCH_LOTTERY_SIZE]

/-! ## C7 -/

/-- C7 (counterexample): the Ticket record size constant is not 82 and the
sequence-lookup record size constant is not 40. -/
theorem ticket_sizes_counterexample :
    FAIR_LAUNCH_TICKET_SIZE ≠ 82 ∧ FAIR_LAUNCH_TICKET_SEQ_SIZE ≠ 40 := by decide

/-- C7 (amended): every Ticket record is allocated exactly 90 bytes and every
SequenceIndex record exactly 48 bytes (the space arguments on lines 135 and 137
of `lib.rs`), fixed at creation. -/
theorem ticket_sizes_eq :
    FAIR_LAUNCH_TICKET_SIZE = 90 ∧ FAIR_LAUNCH_TICKET_SEQ_SIZE = 48 := by decide

/-! ## C10 -/

/-- C10: for every initialize call whose config has tick_size = 0, the account
space computation fails with NumericalOverflowError (checked division by zero),
and the whole instruction fails with that same error for every choice of
accounts and config — in particular before the config-validation step of the
handler body runs (which would have reported a different error, e.g.
UuidMustBeExactly6Length or TickSizeTooSmall). -/
theorem initialize_zero_tick_overflow (accs : InitAccounts) (derived : Pubkey)
    (b tb tmb : Nat) (data : FairLaunchData) (h : data.tick_size = 0) :
    fair_launch_space data = .error .NumericalOverflowError ∧
    initialize_instruction accs derived b tb tmb data =
      .error (.code .NumericalOverflowError) := by
  have hs : fair_launch_space data = .error .NumericalOverflowError := by
    unfold fair_launch_space checked_div
    rw [h]
    simp
  refine ⟨hs, ?_⟩
  unfold initialize_instruction
  rw [hs]

/-- C10 (witness): a config with tick_size = 0 and a 5-character uuid is rejected
with NumericalOverflowError, not the uuid validation error. -/
theorem initialize_zero_tick_overflow_witness :
    fair_launch_space dataBadUuidZeroTick = .error .NumericalOverflowError ∧
    initialize_instruction accsFreshTreasury 11 0 0 0 dataBadUuidZeroTick =
      .error (.code .NumericalOverflowError) :=
  initialize_zero_tick_overflow accsFreshTreasury 11 0 0 0 dataBadUuidZeroTick
    (by decide)

/-! ## C1 -/

/-- C1: every successful initialize call creates the Auction aggregate with all
three counters zero, an empty histogram (median vector), decided_median unset,
and the authority, token mint, treasury and validated config data stored exactly
as supplied. -/
theorem initialize_creates_zeroed_auction (accs : InitAccounts) (derived : Pubkey)
    (b tb tmb : Nat) (data : FairLaunchData) (sp : Nat) (fl : FairLaunchState)
    (h : initialize_instruction accs derived b tb tmb data = .ok (sp, fl)) :
    fl.number_tickets_sold_in_phase_1 = 0 ∧
    fl.number_tickets_remaining_in_phase_2 = 0 ∧
    fl.number_tickets_punched_in_phase_3 = 0 ∧
    fl.median = [] ∧
    fl.decided_median = none ∧
    fl.authority = accs.authority.key ∧
    fl.token_mint = accs.token_mint.key ∧
    fl.treasury = accs.treasury.key ∧
    fl.data = data := by
  obtain ⟨-, hfl⟩ := initialize_instruction_ok_inv accs derived b tb tmb data sp fl h
  unfold initialize_fair_launch at hfl
  repeat' split at hfl
  all_goals first
    | exact Except.noConfusion hfl
    | (injection hfl with h2
       subst h2
       exact ⟨rfl, rfl, rfl, rfl, rfl, rfl, rfl, rfl, rfl⟩)

/-- C1 (witness): the concrete successful call over `accsAltMint` and `dataOk`. -/
theorem initialize_creates_zeroed_auction_witness :
    flInitialized.number_tickets_sold_in_phase_1 = 0 ∧
    flInitialized.number_tickets_remaining_in_phase_2 = 0 ∧
    flInitialized.number_tickets_punched_in_phase_3 = 0 ∧
    flInitialized.median = [] ∧
    flInitialized.decided_median = none ∧
    flInitialized.authority = accsAltMint.authority.key ∧
    flInitialized.token_mint = accsAltMint.token_mint.key ∧
    flInitialized.treasury = accsAltMint.treasury.key ∧
    flInitialized.data = dataOk :=
  initialize_creates_zeroed_auction accsAltMint 11 5 6 7 dataOk 276 flInitialized
    (by decide)

/-! ## C4 -/

/-- C4 (counterexample): a config with uuid "ABCDE" (5 characters) and
tick_size = 0 is rejected with NumericalOverflowError — the allocation-time
division fails before validation — not with UuidMustBeExactly6Length as the
claim states for every short-uuid config. -/
theorem uuid_rejection_counterexample :
    dataBadUuidZeroTick.uuid.length = 5 ∧
    initialize_instruction accsFreshTreasury 11 0 0 0 dataBadUuidZeroTick =
      .error (.code .NumericalOverflowError) ∧
    InitError.code .NumericalOverflowError ≠
      InitError.code .UuidMustBeExactly6Length := by decide

/-- C4 (amended): provided the allocation succeeds (tick_size ≠ 0) and the
account-level authority constraint passes, every config whose uuid is not
exactly 6 characters long is rejected with UuidMustBeExactly6Length; with
tick_size = 0 the call instead fails earlier with NumericalOverflowError. -/
theorem uuid_length_rejected (accs : InitAccounts) (derived : Pubkey)
    (b tb tmb : Nat) (data : FairLaunchData)
    (htick : data.tick_size ≠ 0)
    (hauth : accs.authority.data_is_empty = true)
    (hlam : 0 < accs.authority.lamports)
    (huuid : data.uuid.length ≠ 6) :
    initialize_instruction accs derived b tb tmb data =
      .error (.code .UuidMustBeExactly6Length) := by
  have hdv : assert_data_valid data = .error .UuidMustBeExactly6Length := by
    unfold assert_data_valid
    rw [if_pos huuid]
  have hfl : initialize_fair_launch accs derived b tb tmb data =
      .error .UuidMustBeExactly6Length := by
    unfold initialize_fair_launch
    rw [hdv]
  unfold initialize_instruction
  unfold fair_launch_space checked_div
  rw [if_neg htick]
  simp only []
  rw [if_pos ⟨hauth, hlam⟩, hfl]

/-- C4 (witness): uuid "ABCDE" with tick size 50 is rejected with the uuid
length error. -/
theorem uuid_length_rejected_witness :
    initialize_instruction accsAltMint 11 0 0 0 dataBadUuid =
      .error (.code .UuidMustBeExactly6Length) :=
  uuid_length_rejected accsAltMint 11 0 0 0 dataBadUuid (by decide) (by decide)
    (by decide) (by decide)

/-! ## C5 -/

/-- C5 (counterexample): the accepted config with price range 100-200 and tick
size 50 (tick count 3) is allocated 276 bytes, not 148 + 16 * 3 = 196 as the
claim states. -/
theorem initialize_space_counterexample :
    initialize_instruction accsAltMint 11 5 6 7 dataOk = .ok (276, flInitialized) ∧
    (276 : Nat) ≠ 148 + 16 * ((200 - 100) / 50 + 1) := by decide

/-- C5 (amended): for every accepted config (with u64-ranged prices), the storage
allocated for the FairLaunch record equals exactly 228 + 16 * tick_count bytes,
where tick_count = (price_range_end - price_range_start) / tick_size + 1. -/
theorem initialize_space_eq (accs : InitAccounts) (derived : Pubkey)
    (b tb tmb : Nat) (data : FairLaunchData) (sp : Nat) (fl : FairLaunchState)
    (hend : data.price_range_end < 2 ^ 64)
    (hstart : data.price_range_start < 2 ^ 64)
    (h : initialize_instruction accs derived b tb tmb data = .ok (sp, fl)) :
    sp = 228 + 16 * ((data.price_range_end - data.price_range_start) / data.tick_size + 1) := by
  obtain ⟨hspace, hfl⟩ := initialize_instruction_ok_inv accs derived b tb tmb data sp fl h
  obtain ⟨-, hlt, htick, -, -, -⟩ :=
    assert_data_valid_ok_inv data
      (initialize_fair_launch_ok_data_valid accs derived b tb tmb data fl hfl)
  have hw : wrapping_sub_u64 data.price_range_end data.price_range_start
      = data.price_range_end - data.price_range_start := by
    unfold wrapping_sub_u64
    rw [Nat.mod_eq_of_lt hend, Nat.mod_eq_of_lt hstart]
    have h1 : data.price_range_end + (2 ^ 64 - data.price_range_start)
        = 2 ^ 64 + (data.price_range_end - data.price_range_start) := by omega
    rw [h1, Nat.add_mod_left, Nat.mod_eq_of_lt (by omega)]
  unfold fair_launch_space checked_div at hspace
  rw [if_neg htick] at hspace
  simp only [] at hspace
  injection hspace with h2
  rw [← h2, hw]
  norm_num [FAIR_LAUNCH_SPACE_VEC_START]

/-- C5 (witness): the concrete accepted config with tick count 3 is allocated
228 + 48 = 276 bytes. -/
theorem initialize_space_eq_witness :
    (276 : Nat) = 228 +
      16 * ((dataOk.price_range_end - dataOk.price_range_start) / dataOk.tick_size + 1) :=
  initialize_space_eq accsAltMint 11 5 6 7 dataOk 276 flInitialized (by decide)
    (by decide) (by decide)

/-! ## C3 -/

/-- C3: when an alternate-currency identity is supplied (a first remaining
account) and the earlier checks pass (valid config, token mint owned by the
token program, treasury at the derived address), the call fails with
Uninitialized if that account does not deserialize as an initialized currency
descriptor, fails with IncorrectOwner if it is initialized but not owned by the
token program, and when both checks pass it stores
`treasury_mint = Some(that identity)`. -/
theorem initialize_alt_currency (accs : InitAccounts) (derived : Pubkey)
    (b tb tmb : Nat) (data : FairLaunchData) (tm : AccountInfo)
    (rest : List AccountInfo)
    (hra : accs.remaining_accounts = tm :: rest)
    (hdv : assert_data_valid data = .ok ())
    (hmint : accs.token_mint.owner = spl_token_id)
    (hkey : accs.treasury.key = derived) :
    (tm.mint_initialized = false →
      initialize_fair_launch accs derived b tb tmb data = .error .Uninitialized) ∧
    (tm.mint_initialized = true → tm.owner ≠ spl_token_id →
      initialize_fair_launch accs derived b tb tmb data = .error .IncorrectOwner) ∧
    (tm.mint_initialized = true → tm.owner = spl_token_id →
      (initialize_fair_launch accs derived b tb tmb data).map
        FairLaunchState.treasury_mint = .ok (some tm.key)) := by
  unfold initialize_fair_launch
  rw [hdv, hra]
  refine ⟨?_, ?_, ?_⟩
  · intro h0
    simp [assert_owned_by, hmint, assert_derivation, hkey, assert_initialized, h0]
  · intro h1 h2
    simp [assert_owned_by, hmint, assert_derivation, hkey, assert_initialized, h1, h2]
  · intro h1 h2
    simp [assert_owned_by, hmint, assert_derivation, hkey, assert_initialized, h1, h2,
      Except.map]

/-- C3 (witness): the concrete initialized, token-program-owned alternate mint is
recorded in `treasury_mint`. -/
theorem initialize_alt_currency_witness :
    (initialize_fair_launch accsAltMint 11 5 6 7 dataOk).map
      FairLaunchState.treasury_mint = .ok (some altMintOk.key) :=
  (initialize_alt_currency accsAltMint 11 5 6 7 dataOk altMintOk [] (by decide)
    (by decide) (by decide) (by decide)).2.2 (by decide) (by decide)

/-! ## C8 -/

/-- A successful purchase leaves `decided_median` unchanged. -/
theorem purchase_preserves_median (now : Int) (k b : Pubkey)
    (fl : FairLaunchState) (a : Nat) (pr : FairLaunchState × FairLaunchTicket)
    (h : purchase now k fl b a = some pr) :
    pr.1.decided_median = fl.decided_median := by
  unfold purchase at h
  split at h
  · injection h with h2
    subst h2
    rfl
  · exact Option.noConfusion h

/-- A successful adjustment leaves `decided_median` unchanged. -/
theorem adjust_preserves_median (now : Int) (fl : FairLaunchState)
    (t : FairLaunchTicket) (na : Nat) (pr : FairLaunchState × FairLaunchTicket)
    (h : adjust now fl t na = some pr) :
    pr.1.decided_median = fl.decided_median := by
  unfold adjust at h
  repeat' split at h
  all_goals first
    | exact Option.noConfusion h
    | (injection h with h2
       subst h2
       rfl)

/-- A successful punch leaves `decided_median` unchanged. -/
theorem punch_preserves_median (now : Int) (fl : FairLaunchState)
    (t : FairLaunchTicket) (w : Bool) (pr : FairLaunchState × FairLaunchTicket)
    (h : punch now fl t w = some pr) :
    pr.1.decided_median = fl.decided_median := by
  unfold punch at h
  repeat' split at h
  all_goals first
    | exact Option.noConfusion h
    | (injection h with h2
       subst h2
       rfl)

/-- A successful config update leaves `decided_median` unchanged. -/
theorem update_config_preserves_median (now : Int) (fl fl' : FairLaunchState)
    (d : FairLaunchData) (h : update_config now fl d = some fl') :
    fl'.decided_median = fl.decided_median := by
  unfold update_config at h
  split at h
  · injection h with h2
    subst h2
    rfl
  · exact Option.noConfusion h

/-- Setting the phase-three window leaves `decided_median` unchanged. -/
theorem start_phase_three_preserves_median (fl fl' : FairLaunchState)
    (be : Bool) (s e : Int) (h : start_phase_three fl be s e = some fl') :
    fl'.decided_median = fl.decided_median := by
  unfold start_phase_three at h
  repeat' split at h
  all_goals first
    | exact Option.noConfusion h
    | (injection h with h2
       subst h2
       rfl)

/-- A successful price discovery run that started with the median still unset
sets `decided_median` to the discovered value. -/
theorem set_decided_median_sets (now : Int) (fl fl' : FairLaunchState)
    (m r : Nat) (h : set_decided_median now fl m r = some fl') :
    fl'.decided_median = some m := by
  unfold set_decided_median at h
  repeat' split at h
  all_goals first
    | exact Option.noConfusion h
    | (injection h with h2
       subst h2
       rfl)

/-- C8: once an auction's `decided_median` has been set to some price m it never
changes — every aggregate-writing operation of the program that succeeds leaves
it equal to some m, and any further attempt to set it (price discovery again)
fails. -/
theorem decided_median_immutable (now : Int) (op : Op) (fl fl' : FairLaunchState)
    (m x r : Nat) (hm : fl.decided_median = some m)
    (happ : apply_op now op fl = some fl') :
    fl'.decided_median = some m ∧
    apply_op now (.setMedianOp x r) fl = none := by
  have hset : apply_op now (.setMedianOp x r) fl = none := by
    unfold apply_op set_decided_median
    rw [hm]
    simp
  refine ⟨?_, hset⟩
  cases op with
  | purchaseOp k bu a =>
    simp only [apply_op, Option.map_eq_some'] at happ
    obtain ⟨pr, hp, hfst⟩ := happ
    rw [← hfst, purchase_preserves_median now k bu fl a pr hp, hm]
  | adjustOp t na =>
    simp only [apply_op, Option.map_eq_some'] at happ
    obtain ⟨pr, hp, hfst⟩ := happ
    rw [← hfst, adjust_preserves_median now fl t na pr hp, hm]
  | punchOp t w =>
    simp only [apply_op, Option.map_eq_some'] at happ
    obtain ⟨pr, hp, hfst⟩ := happ
    rw [← hfst, punch_preserves_median now fl t w pr hp, hm]
  | setMedianOp m2 r2 =>
    simp only [apply_op] at happ
    unfold set_decided_median at happ
    rw [hm] at happ
    simp at happ
  | updateConfigOp d =>
    simp only [apply_op] at happ
    rw [update_config_preserves_median now fl fl' d happ, hm]
  | startPhaseThreeOp be s e =>
    simp only [apply_op] at happ
    rw [start_phase_three_preserves_median fl fl' be s e happ, hm]

/-- C8 (witness): punching a winner on the decided auction keeps the median at
150, and running price discovery again on it fails. -/
theorem decided_median_immutable_witness :
    flPunched.decided_median = some 150 ∧
    apply_op 45 (.setMedianOp 100 3) flDecided = none :=
  decided_median_immutable 45 (.punchOp ticketAt200 true) flDecided flPunched
    150 100 3 (by decide) (by decide)

/-! ## C9 -/

/-- C9: for every adjust invoked in the phase-three window on an unpunched
ticket with a tick-aligned new amount, with decided_median = m set: if the
ticket's current amount is strictly above m, the new amount is accepted exactly
when m ≤ new_amount < current amount; if the current amount is at or below m,
exactly when new_amount ≤ current amount. -/
theorem adjust_phase3_median_rule (now : Int) (fl : FairLaunchState)
    (t : FairLaunchTicket) (na m : Nat)
    (hmed : fl.decided_median = some m)
    (hstate : t.state = .Unpunched)
    (halign : tick_aligned fl.data na = true)
    (h12 : phase_one_or_two_active fl.data now = false)
    (hp3 : phase_three_active fl.data now = true) :
    (adjust now fl t na).isSome = true ↔
      (if m < t.amount then m ≤ na ∧ na < t.amount else na ≤ t.amount) := by
  unfold adjust
  rw [hstate, halign, h12, hp3, hmed]
  simp only [ne_eq, not_true_eq_false, if_false, Bool.false_eq_true, ite_true,
    ite_false, Bool.true_eq_false]
  by_cases hcase : m < t.amount
  · rw [if_pos hcase, if_pos hcase]
    by_cases hc2 : m ≤ na ∧ na < t.amount
    · simp [hc2]
    · simp [hc2]
  · rw [if_neg hcase, if_neg hcase]
    by_cases hc2 : na ≤ t.amount
    · simp [hc2]
    · simp [hc2]

/-- C9 (witness): on the decided auction (median 150), the ticket at 200 may
adjust to 150 in phase three. -/
theorem adjust_phase3_median_rule_witness :
    (adjust 45 flDecided ticketAt200 150).isSome = true ↔
      (if 150 < ticketAt200.amount then 150 ≤ 150 ∧ 150 < ticketAt200.amount
        else 150 ≤ ticketAt200.amount) :=
  adjust_phase3_median_rule 45 flDecided ticketAt200 150 150 (by decide)
    (by decide) (by decide) (by decide) (by decide)

end FairLaunch
